import Mathlib

/-!
Shallow embedding of `scripts/data_profiler.py` from the
`modern-elt-warehouse` project: the dataframe profiling routine
(`analyze_dataframe`), the quality scorer (`generate_quality_score`),
and the percentage computations of the report renderers
(`print_profile_table` and `generate_markdown_report`).

Conventions of the embedding:
* Machine floats are modelled by `ℚ`.
* A NaN produced by numpy when an integer series statistic is divided by
  a zero `len(df)` is modelled by `none : Option ℚ`; arithmetic on such
  a value propagates `none`, and Python's `max(0, score)` evaluates to
  `0` when `score` is NaN, which the embedding reproduces.
* A Python `ZeroDivisionError` (true division of two plain ints by zero)
  is modelled by `none` at the exact expression where the source raises.
* The `size_mb` field (a best-effort deep memory estimate delegated to
  the pandas library) and the textual `dtype` tag are not modelled; the
  dtype classification itself is modelled by the `TypeStats` variant.
-/

namespace DataProfiler

/-- A scalar cell of a dataframe: null/missing (pandas NaN/None), a
numeric value, or a text value. -/
inductive Value where
  | null : Value
  | num : ℚ → Value
  | str : String → Value
  deriving DecidableEq, Repr

/-- Tests whether a cell is null, as `pd.isna` does. -/
def Value.isNull : Value → Bool
  | .null => true
  | _ => false

/-- Tests whether a cell holds a numeric value. -/
def Value.isNum : Value → Bool
  | .num _ => true
  | _ => false

/-- Tests whether a cell holds a text value. -/
def Value.isStr : Value → Bool
  | .str _ => true
  | _ => false

/-- Extracts the numeric payload of a cell, if any. -/
def Value.toNum : Value → Option ℚ
  | .num q => some q
  | _ => none

/-- Extracts the text payload of a cell, if any. -/
def Value.toStr : Value → Option String
  | .str s => some s
  | _ => none

/-- A row of a dataframe, aligned positionally with the column list. -/
abbrev Row := List Value

/-- A dataframe: named columns and a list of rows. -/
structure Dataset where
  columns : List String
  rows : List Row
  deriving DecidableEq, Repr

/-- Rounding to two decimal places, as `round(x, 2)` in the source. -/
def round2 (q : ℚ) : ℚ := (round (q * 100) : ℤ) / 100

/-- Models `round(k / len(df) * 100, 2)` where `k` is an integer count:
when `len(df) = 0` numpy produces NaN (modelled `none`) instead of
raising. -/
def pct (k n : ℕ) : Option ℚ :=
  if n = 0 then none else some (round2 ((k : ℚ) / (n : ℚ) * 100))

/-- The boolean series `df.duplicated()` computed with an accumulator of
rows already seen: a row is flagged when an equal row occurred before. -/
def dupFlagsAux (seen : List Row) : List Row → List Bool
  | [] => []
  | r :: rs => (if r ∈ seen then true else false) :: dupFlagsAux (r :: seen) rs

/-- `df.duplicated().sum()`: the number of rows equal to an earlier row. -/
def dupCount (rows : List Row) : ℕ := (dupFlagsAux [] rows).count true

/-- Values of column `i` of the dataset, one per row. -/
def colValues (ds : Dataset) (i : ℕ) : List Value :=
  ds.rows.map (fun r => r.getD i Value.null)

/-- Numeric sub-statistics of a numeric column. All fields are NaN
(modelled `none`) when the defining reduction is empty. -/
structure NumericStats where
  mean : Option ℚ
  median : Option ℚ
  min : Option ℚ
  max : Option ℚ
  /-- The source stores the sample standard deviation `df[col].std()`;
  since its square root is irrational in general, the embedding records
  the sample variance (the std squared). It is defined exactly when the
  source's std is not NaN, i.e. when at least two non-null values
  exist. -/
  std_sq : Option ℚ
  deriving DecidableEq, Repr

/-- Text sub-statistics of a text column. `min_length` and `max_length`
are `none` when no non-null string exists (where `int(nan)` would raise
in the source). -/
structure TextStats where
  min_length : Option ℕ
  max_length : Option ℕ
  empty_strings : ℕ
  deriving DecidableEq, Repr

/-- The type-dependent part of a column profile, mirroring the
`is_numeric_dtype` / `is_string_dtype` branches of the source. -/
inductive TypeStats where
  | numeric : NumericStats → TypeStats
  | text : TextStats → TypeStats
  | other : TypeStats
  deriving DecidableEq, Repr

/-- The per-column entry of `profile["columns_info"]`. -/
structure ColumnProfile where
  non_null : ℕ
  null : ℕ
  null_percentage : Option ℚ
  unique : ℕ
  typeStats : TypeStats
  deriving DecidableEq, Repr

/-- Minimum of a list, `none` on the empty list. -/
def listMin [Min α] : List α → Option α
  | [] => none
  | x :: xs => some (xs.foldl Min.min x)

/-- Maximum of a list, `none` on the empty list. -/
def listMax [Max α] : List α → Option α
  | [] => none
  | x :: xs => some (xs.foldl Max.max x)

/-- Mean of a list of rationals, NaN (`none`) on the empty list. -/
def meanOf (l : List ℚ) : Option ℚ :=
  if l.length = 0 then none else some (l.sum / (l.length : ℚ))

/-- Median of a list of rationals: middle element of the sorted list, or
the average of the two middle elements; NaN (`none`) on the empty
list. -/
def medianOf (l : List ℚ) : Option ℚ :=
  if l.length = 0 then none
  else
    let s := l.insertionSort (· ≤ ·)
    if l.length % 2 = 1 then some (s.getD (l.length / 2) 0)
    else some ((s.getD (l.length / 2 - 1) 0 + s.getD (l.length / 2) 0) / 2)

/-- Sample variance (the square of `df[col].std()`, which uses
`ddof = 1`): NaN (`none`) when fewer than two values exist. -/
def sampleVar (l : List ℚ) : Option ℚ :=
  if l.length < 2 then none
  else some ((l.map (fun x => (x - l.sum / (l.length : ℚ)) ^ 2)).sum
    / ((l.length : ℚ) - 1))

/-- Column dtype is numeric: every non-null value is numeric (an
all-null column is a float column in pandas, hence numeric). -/
def isNumericCol (vs : List Value) : Bool :=
  vs.all (fun v => v.isNull || v.isNum)

/-- Column dtype is textual: every non-null value is a string. -/
def isStringCol (vs : List Value) : Bool :=
  vs.all (fun v => v.isNull || v.isStr)

/-- The body of the per-column loop of `analyze_dataframe`: builds one
`col_info` record from the column's values and the row count
`len(df)`. -/
def analyzeColumn (vs : List Value) (n : ℕ) : ColumnProfile :=
  let nulls := (vs.filter (fun v => v.isNull)).length
  { non_null := (vs.filter (fun v => !v.isNull)).length
    null := nulls
    null_percentage := pct nulls n
    unique := ((vs.filter (fun v => !v.isNull)).dedup).length
    typeStats :=
      if isNumericCol vs then
        let nums := vs.filterMap Value.toNum
        .numeric
          { mean := meanOf nums
            median := medianOf nums
            min := listMin nums
            max := listMax nums
            std_sq := sampleVar nums }
      else if isStringCol vs then
        let strs := vs.filterMap Value.toStr
        let lens := strs.map String.length
        .text
          { min_length := listMin lens
            max_length := listMax lens
            empty_strings := (strs.filter (fun s => s.length == 0)).length }
      else .other }

/-- The profile dictionary returned by `analyze_dataframe`. -/
structure DatasetProfile where
  filename : String
  rows : ℕ
  columns : ℕ
  duplicates_total : ℕ
  duplicates_percentage : Option ℚ
  columns_info : List (String × ColumnProfile)
  deriving DecidableEq, Repr

/-- `analyze_dataframe(df, filename)`: the full dataset profile. -/
def analyze_dataframe (ds : Dataset) (filename : String) : DatasetProfile :=
  { filename := filename
    rows := ds.rows.length
    columns := ds.columns.length
    duplicates_total := dupCount ds.rows
    duplicates_percentage := pct (dupCount ds.rows) ds.rows.length
    columns_info :=
      (List.range ds.columns.length).map (fun i =>
        (ds.columns.getD i "", analyzeColumn (colValues ds i) ds.rows.length)) }

/-- The accumulated null deduction of `generate_quality_score`: one
`null_percentage * 0.5` term per column, propagating NaN (`none`). -/
def nullPenalty : List (String × ColumnProfile) → Option ℚ
  | [] => some 0
  | c :: cs =>
    match c.2.null_percentage, nullPenalty cs with
    | some np, some s => some (np * (1 / 2) + s)
    | _, _ => none

/-- `generate_quality_score(profile)`: start from 100, deduct 0.5 per
null percentage point per column and 2 per duplicate percentage point,
then floor at 0 with `max(0, score)`. When any percentage is NaN the
running score is NaN, and Python's `max(0, nan)` returns its first
argument `0`. -/
def generate_quality_score (p : DatasetProfile) : ℚ :=
  match nullPenalty p.columns_info, p.duplicates_percentage with
  | some s, some dp => max 0 (100 - s - dp * 2)
  | _, _ => 0

/-- The expression `(col_info["non_null"] / profile["rows"]) * 100` from
`generate_markdown_report`: both operands are plain Python ints, so a
zero row count raises `ZeroDivisionError`, modelled by `none`. -/
def report_non_null_pct (non_null rows : ℕ) : Option ℚ :=
  if rows = 0 then none else some ((non_null : ℚ) / (rows : ℚ) * 100)

/-- The running sum `sum(col["null_percentage"] for col in ...)` from
`print_profile_table`, propagating NaN (`none`). -/
def nullPctSum : List (String × ColumnProfile) → Option ℚ
  | [] => some 0
  | c :: cs =>
    match c.2.null_percentage, nullPctSum cs with
    | some q, some s => some (q + s)
    | _, _ => none

/-- The `avg_null` computation of `print_profile_table`: the null
percentage sum divided by `len(profile["columns_info"])`. With zero
columns the sum is the plain int `0` and the division raises
`ZeroDivisionError` (modelled `none`); with a NaN percentage the
average is NaN (modelled `none`, no error raised). -/
def avg_null (cols : List (String × ColumnProfile)) : Option ℚ :=
  match nullPctSum cols, cols.length with
  | _, 0 => none
  | some s, n => some (s / (n : ℚ))
  | none, _ => none

/-- Number of null cells of a column, `df[col].isna().sum()`. -/
def nullCount (vs : List Value) : ℕ := (vs.filter (fun v => v.isNull)).length

/-- Row `i` is an exact value-wise duplicate of an earlier row: some row
with a smaller index has all columns equal. -/
def hasEarlierDup (rows : List Row) (i : ℕ) : Prop :=
  ∃ j, j < i ∧ rows.getD j [] = rows.getD i []

instance (rows : List Row) (i : ℕ) : Decidable (hasEarlierDup rows i) :=
  decidable_of_iff
    ((List.range i).any (fun j => decide (rows.getD j [] = rows.getD i [])) = true)
    (by simp [hasEarlierDup, List.any_eq_true, List.mem_range])

/-- Concrete dataset of spec Scenario 1: 3 rows, 2 columns, one null in
column A, no duplicate rows. -/
def wds : Dataset :=
  ⟨["A", "B"],
   [[Value.null, Value.num 1],
    [Value.num 1, Value.num 2],
    [Value.num 2, Value.num 3]]⟩

/-- Concrete dataset with one duplicated row (rows 1 and 3 identical). -/
def wds4 : Dataset :=
  ⟨["a"], [[Value.num 1], [Value.num 2], [Value.num 1], [Value.num 3]]⟩

/-- Concrete dataset with one column and zero rows (a header-only CSV). -/
def emptyDS : Dataset := ⟨["a"], []⟩

/-- A concrete column profile with a prescribed null percentage. -/
def wcp (q : ℚ) : ColumnProfile :=
  { non_null := 2, null := 1, null_percentage := some q, unique := 2
    typeStats := TypeStats.other }

/-- A concrete two-column dataset profile. -/
def wprof : DatasetProfile :=
  ⟨"t", 3, 2, 0, some 0, [("A", wcp 10), ("B", wcp 0)]⟩

/-- A dataset profile with the same percentages as `wprof` but different
filename, counts and column names. -/
def wprof2 : DatasetProfile :=
  ⟨"u", 7, 2, 5, some 0, [("X", wcp 10), ("Y", wcp 0)]⟩

/- ## Helper lemmas -/

lemma nullPenalty_eq_sum :
    ∀ (cs : List (String × ColumnProfile)) (l : List ℚ),
      cs.map (fun c => c.2.null_percentage) = l.map some →
      nullPenalty cs = some ((l.map (fun np => np * (1 / 2))).sum) := by
  intro cs
  induction cs with
  | nil =>
    intro l hl
    cases l with
    | nil => simp [nullPenalty]
    | cons q l => simp at hl
  | cons c cs ih =>
    intro l hl
    cases l with
    | nil => simp at hl
    | cons q l =>
      simp only [List.map_cons, List.cons.injEq] at hl
      simp [nullPenalty, hl.1, ih l hl.2]

lemma nullPenalty_congr :
    ∀ (xs ys : List (String × ColumnProfile)),
      xs.map (fun c => c.2.null_percentage) = ys.map (fun c => c.2.null_percentage) →
      nullPenalty xs = nullPenalty ys := by
  intro xs
  induction xs with
  | nil =>
    intro ys h
    cases ys with
    | nil => rfl
    | cons y ys => simp at h
  | cons x xs ih =>
    intro ys h
    cases ys with
    | nil => simp at h
    | cons y ys =>
      simp only [List.map_cons, List.cons.injEq] at h
      simp [nullPenalty, h.1, ih ys h.2]

lemma nullPenalty_append (l r : List (String × ColumnProfile)) :
    nullPenalty (l ++ r) =
      match nullPenalty l, nullPenalty r with
      | some a, some b => some (a + b)
      | _, _ => none := by
  induction l with
  | nil =>
    cases hr : nullPenalty r <;> simp [nullPenalty, hr]
  | cons c cs ih =>
    cases hc : c.2.null_percentage <;>
      cases hcs : nullPenalty cs <;>
      cases hr : nullPenalty r <;>
      simp [nullPenalty, hc, hcs, hr, ih] <;>
      ring

lemma mem_columns_info {ds : Dataset} {name : String} {c : String × ColumnProfile}
    (hc : c ∈ (analyze_dataframe ds name).columns_info) :
    ∃ i, i < ds.columns.length ∧
      c = (ds.columns.getD i "", analyzeColumn (colValues ds i) ds.rows.length) := by
  simp only [analyze_dataframe, List.mem_map, List.mem_range] at hc
  obtain ⟨i, hi, hceq⟩ := hc
  exact ⟨i, hi, hceq.symm⟩

lemma filter_isNull_partition (vs : List Value) :
    (vs.filter (fun v => !v.isNull)).length + (vs.filter (fun v => v.isNull)).length
      = vs.length := by
  induction vs with
  | nil => rfl
  | cons v vs ih =>
    cases hv : v.isNull <;> simp [List.filter_cons, hv] <;> omega

lemma nullPctSum_eq :
    ∀ (cs : List (String × ColumnProfile)) (l : List ℚ),
      cs.map (fun c => c.2.null_percentage) = l.map some →
      nullPctSum cs = some l.sum := by
  intro cs
  induction cs with
  | nil =>
    intro l hl
    cases l with
    | nil => simp [nullPctSum]
    | cons q l => simp at hl
  | cons c cs ih =>
    intro l hl
    cases l with
    | nil => simp at hl
    | cons q l =>
      simp only [List.map_cons, List.cons.injEq] at hl
      simp [nullPctSum, hl.1, ih l hl.2]

lemma dupFlagsAux_length (rs : List Row) : ∀ seen, (dupFlagsAux seen rs).length = rs.length := by
  induction rs with
  | nil => intro seen; rfl
  | cons r rs ih => intro seen; simp [dupFlagsAux, ih]

lemma dupFlagsAux_getD (rs : List Row) :
    ∀ (seen : List Row) (i : ℕ), i < rs.length →
      ((dupFlagsAux seen rs).getD i false = true ↔
        (rs.getD i [] ∈ seen ∨ ∃ j, j < i ∧ rs.getD j [] = rs.getD i [])) := by
  induction rs with
  | nil =>
    intro seen i h
    simp at h
  | cons r rs ih =>
    intro seen i h
    cases i with
    | zero =>
      simp [dupFlagsAux]
    | succ i =>
      have h' : i < rs.length := by simpa using h
      have hih := ih (r :: seen) i h'
      simp only [dupFlagsAux, List.getD_cons_succ]
      rw [hih]
      constructor
      · rintro (hmem | ⟨j, hj, hje⟩)
        · rcases List.mem_cons.mp hmem with heq | hmem2
          · exact Or.inr ⟨0, Nat.succ_pos _, by simpa using heq.symm⟩
          · exact Or.inl hmem2
        · exact Or.inr ⟨j + 1, by omega, by simpa using hje⟩
      · rintro (hmem | ⟨j, hj, hje⟩)
        · exact Or.inl (List.mem_cons_of_mem _ hmem)
        · cases j with
          | zero =>
            exact Or.inl (List.mem_cons.mpr (Or.inl (by simpa using hje.symm)))
          | succ j =>
            exact Or.inr ⟨j, by omega, by simpa using hje⟩

lemma count_true_eq_filter_range (bs : List Bool) :
    bs.count true = ((List.range bs.length).filter (fun i => bs.getD i false)).length := by
  induction bs with
  | nil => rfl
  | cons b bs ih =>
    rw [List.length_cons, List.range_succ_eq_map, List.filter_cons]
    have hmap : ((List.range bs.length).map Nat.succ).filter (fun i => (b :: bs).getD i false)
        = ((List.range bs.length).filter (fun i => bs.getD i false)).map Nat.succ := by
      rw [List.filter_map]
      rfl
    rw [hmap]
    cases b <;> simp [List.count_cons, ih]

lemma dupCount_le_length (rows : List Row) : dupCount rows ≤ rows.length := by
  rw [dupCount]
  exact le_trans (List.count_le_length _ _) (le_of_eq (dupFlagsAux_length rows []))

lemma dupCount_eq_earlier (rows : List Row) :
    dupCount rows =
      ((List.range rows.length).filter (fun i => decide (hasEarlierDup rows i))).length := by
  rw [dupCount, count_true_eq_filter_range, dupFlagsAux_length]
  refine congrArg List.length (List.filter_congr ?_)
  intro i hi
  have hi' : i < rows.length := List.mem_range.mp hi
  have hiff := dupFlagsAux_getD rows [] i hi'
  simp only [List.not_mem_nil, false_or] at hiff
  apply Bool.coe_iff_coe.mp
  rw [hiff, decide_eq_true_iff]
  exact Iff.rfl

lemma round_mono_q {a b : ℚ} (hab : a ≤ b) : round a ≤ round b := by
  rw [round_eq, round_eq]
  exact Int.floor_le_floor (by linarith)

lemma round2_bounds {x : ℚ} (h0 : 0 ≤ x) (h1 : x ≤ 100) :
    0 ≤ round2 x ∧ round2 x ≤ 100 := by
  have hlo : (0 : ℤ) ≤ round (x * 100) := by
    have h := round_mono_q (show (0 : ℚ) ≤ x * 100 by nlinarith)
    simpa using h
  have hhi : round (x * 100) ≤ 10000 := by
    have h := round_mono_q (show x * 100 ≤ (10000 : ℚ) by nlinarith)
    simpa [round_ofNat] using h
  constructor
  · exact div_nonneg (by exact_mod_cast hlo) (by norm_num)
  · rw [round2, div_le_iff (by norm_num : (0 : ℚ) < 100)]
    calc ((round (x * 100) : ℤ) : ℚ) ≤ 10000 := by exact_mod_cast hhi
    _ = 100 * 100 := by norm_num

lemma round2_third : round2 ((1 : ℚ) / 3 * 100) = 3333 / 100 := by
  rw [round2, show ((1 : ℚ) / 3 * 100) * 100 = 10000 / 3 by norm_num]
  rw [round_eq, show (10000 : ℚ) / 3 + 1 / 2 = 20003 / 6 by norm_num]
  rw [show ⌊(20003 : ℚ) / 6⌋ = 3333 from Int.floor_eq_iff.mpr ⟨by norm_num, by norm_num⟩]
  norm_num

lemma round2_zero_of : round2 ((0 : ℚ) / 3 * 100) = 0 := by
  rw [round2]
  norm_num

lemma scenario1_eval (ds : Dataset) (name : String)
    (hc : ds.columns.length = 2) (hr : ds.rows.length = 3)
    (hA : nullCount (colValues ds 0) = 1)
    (hB : nullCount (colValues ds 1) = 0)
    (hd : dupCount ds.rows = 0) :
    (analyze_dataframe ds name).columns_info.map (fun c => c.2.null_percentage)
      = [some (3333 / 100), some 0] ∧
    generate_quality_score (analyze_dataframe ds name) = 16667 / 200 := by
  have hci : (analyze_dataframe ds name).columns_info
      = [(ds.columns.getD 0 "", analyzeColumn (colValues ds 0) ds.rows.length),
         (ds.columns.getD 1 "", analyzeColumn (colValues ds 1) ds.rows.length)] := by
    show (List.range ds.columns.length).map _ = _
    rw [hc]
    rfl
  have hnp0 : (analyzeColumn (colValues ds 0) ds.rows.length).null_percentage
      = some (3333 / 100) := by
    show pct ((colValues ds 0).filter (fun v => v.isNull)).length ds.rows.length = _
    rw [show ((colValues ds 0).filter (fun v => v.isNull)).length = nullCount (colValues ds 0)
      from rfl, hA, hr]
    rw [show pct 1 3 = some (round2 ((1 : ℚ) / 3 * 100)) by norm_num [pct]]
    rw [round2_third]
  have hnp1 : (analyzeColumn (colValues ds 1) ds.rows.length).null_percentage
      = some 0 := by
    show pct ((colValues ds 1).filter (fun v => v.isNull)).length ds.rows.length = _
    rw [show ((colValues ds 1).filter (fun v => v.isNull)).length = nullCount (colValues ds 1)
      from rfl, hB, hr]
    rw [show pct 0 3 = some (round2 ((0 : ℚ) / 3 * 100)) by norm_num [pct]]
    rw [round2_zero_of]
  have hdp : (analyze_dataframe ds name).duplicates_percentage = some 0 := by
    show pct (dupCount ds.rows) ds.rows.length = _
    rw [hd, hr]
    rw [show pct 0 3 = some (round2 ((0 : ℚ) / 3 * 100)) by norm_num [pct]]
    rw [round2_zero_of]
  have hmap : (analyze_dataframe ds name).columns_info.map (fun c => c.2.null_percentage)
      = [some (3333 / 100), some 0] := by
    rw [hci]
    simp only [List.map_cons, List.map_nil]
    rw [show ((ds.columns.getD 0 "", analyzeColumn (colValues ds 0) ds.rows.length) :
        String × ColumnProfile).2.null_percentage
      = (analyzeColumn (colValues ds 0) ds.rows.length).null_percentage from rfl]
    rw [hnp0, hnp1]
  refine ⟨hmap, ?_⟩
  have hpen := nullPenalty_eq_sum (analyze_dataframe ds name).columns_info
    [3333 / 100, 0] (by rw [hmap]; rfl)
  rw [generate_quality_score, hpen, hdp]
  show max 0 (100 - ([(3333 : ℚ) / 100, 0].map (fun np => np * (1 / 2))).sum - 0 * 2)
    = 16667 / 200
  rw [show (100 : ℚ) - ([(3333 : ℚ) / 100, 0].map (fun np => np * (1 / 2))).sum - 0 * 2
    = 16667 / 200 by simp [List.sum_cons]; norm_num]
  exact max_eq_right (by norm_num)

/- ## Claim theorems -/

/-- C1: for every dataset profile whose percentage fields are defined
numbers (not NaN), the quality score equals
`max(0, 100 − (Σ over columns of null_percentage × 0.5) −
duplicate_percentage × 2)`. -/
theorem C1_quality_score_formula (p : DatasetProfile) (l : List ℚ) (dp : ℚ)
    (hl : p.columns_info.map (fun c => c.2.null_percentage) = l.map some)
    (hdp : p.duplicates_percentage = some dp) :
    generate_quality_score p =
      max 0 (100 - (l.map (fun np => np * (1 / 2))).sum - dp * 2) := by
  simp [generate_quality_score, nullPenalty_eq_sum _ _ hl, hdp]

/-- C1 witness: the formula evaluated on a concrete two-column profile. -/
theorem C1_quality_score_formula_witness :
    wprof.columns_info.map (fun c => c.2.null_percentage) = [(10 : ℚ), 0].map some ∧
    wprof.duplicates_percentage = some 0 ∧
    generate_quality_score wprof =
      max 0 (100 - ([(10 : ℚ), 0].map (fun np => np * (1 / 2))).sum - 0 * 2) :=
  ⟨by decide, by decide, C1_quality_score_formula wprof [10, 0] 0 (by decide) (by decide)⟩

/-- C9: the quality scorer is a deterministic pure function of its
profile argument: the score depends only on the profile's percentage
fields, so two runs on the same profile data always yield the same
value; there is no hidden state. -/
theorem C9_pure_function (p q : DatasetProfile)
    (hcols : p.columns_info.map (fun c => c.2.null_percentage) =
      q.columns_info.map (fun c => c.2.null_percentage))
    (hdp : p.duplicates_percentage = q.duplicates_percentage) :
    generate_quality_score p = generate_quality_score q := by
  simp [generate_quality_score, nullPenalty_congr _ _ hcols, hdp]

/-- C9 witness: two profiles differing only in filename, counts and
column names get the same score. -/
theorem C9_pure_function_witness :
    wprof.columns_info.map (fun c => c.2.null_percentage) =
      wprof2.columns_info.map (fun c => c.2.null_percentage) ∧
    wprof.duplicates_percentage = wprof2.duplicates_percentage ∧
    generate_quality_score wprof = generate_quality_score wprof2 :=
  ⟨by decide, by decide, C9_pure_function wprof wprof2 (by decide) (by decide)⟩

/-- C5: for two profiles identical except that one column's null
percentage is larger in the second (all percentages non-negative), the
second score is at most the first. -/
theorem C5_score_monotone (fn : String) (rows cols dt : ℕ) (dp : Option ℚ)
    (l r : List (String × ColumnProfile)) (name : String)
    (c1 c2 : ColumnProfile) (q1 q2 : ℚ)
    (h0 : 0 ≤ q1)
    (h1 : c1.null_percentage = some q1)
    (h2 : c2 = { c1 with null_percentage := some q2 })
    (hq : q1 ≤ q2) :
    generate_quality_score ⟨fn, rows, cols, dt, dp, l ++ (name, c2) :: r⟩ ≤
      generate_quality_score ⟨fn, rows, cols, dt, dp, l ++ (name, c1) :: r⟩ := by
  subst h2
  cases dp with
  | none => simp [generate_quality_score]
  | some dpv =>
    cases hL : nullPenalty l with
    | none =>
      have e1 : nullPenalty (l ++ (name, { c1 with null_percentage := some q2 }) :: r) = none := by
        rw [nullPenalty_append, hL]
      have e2 : nullPenalty (l ++ (name, c1) :: r) = none := by
        rw [nullPenalty_append, hL]
      simp [generate_quality_score, e1, e2]
    | some a =>
      cases hR : nullPenalty r with
      | none =>
        have eR : ∀ c : ColumnProfile, nullPenalty ((name, c) :: r) = none := by
          intro c
          cases hc : c.null_percentage <;> simp [nullPenalty, hc, hR]
        have e1 : nullPenalty (l ++ (name, { c1 with null_percentage := some q2 }) :: r) = none := by
          rw [nullPenalty_append, hL, eR]
        have e2 : nullPenalty (l ++ (name, c1) :: r) = none := by
          rw [nullPenalty_append, hL, eR]
        simp [generate_quality_score, e1, e2]
      | some b =>
        have eC : ∀ (q : ℚ) (c : ColumnProfile), c.null_percentage = some q →
            nullPenalty ((name, c) :: r) = some (q * (1 / 2) + b) := by
          intro q c hc
          simp [nullPenalty, hc, hR]
        have e1 : nullPenalty (l ++ (name, { c1 with null_percentage := some q2 }) :: r)
            = some (a + (q2 * (1 / 2) + b)) := by
          rw [nullPenalty_append, hL, eC q2 _ rfl]
        have e2 : nullPenalty (l ++ (name, c1) :: r) = some (a + (q1 * (1 / 2) + b)) := by
          rw [nullPenalty_append, hL, eC q1 _ h1]
        simp only [generate_quality_score, e1, e2]
        exact max_le_max (le_refl 0) (by linarith)

/-- C5 witness: raising the only column's null percentage from 10 to 20
does not increase the score. -/
theorem C5_score_monotone_witness :
    (0 : ℚ) ≤ 10 ∧ (wcp 10).null_percentage = some 10 ∧
    wcp 20 = { wcp 10 with null_percentage := some (20 : ℚ) } ∧ (10 : ℚ) ≤ 20 ∧
    generate_quality_score ⟨"t", 3, 2, 0, some 0, [] ++ ("A", wcp 20) :: []⟩ ≤
      generate_quality_score ⟨"t", 3, 2, 0, some 0, [] ++ ("A", wcp 10) :: []⟩ :=
  ⟨by norm_num, rfl, rfl, by norm_num,
    C5_score_monotone "t" 3 2 0 (some 0) [] [] "A" (wcp 10) (wcp 20) 10 20
      (by norm_num) rfl rfl (by norm_num)⟩

/-- C3: every column profile produced by the analyzer satisfies
`non_null + null = row_count`, and when the row count is positive its
null percentage equals `null / row_count × 100` rounded to two decimal
places (for a zero row count the source computes NaN, see C2). -/
theorem C3_null_invariant (ds : Dataset) (name : String) (c : String × ColumnProfile)
    (hc : c ∈ (analyze_dataframe ds name).columns_info) :
    c.2.non_null + c.2.null = ds.rows.length ∧
    (0 < ds.rows.length →
      c.2.null_percentage =
        some (round2 ((c.2.null : ℚ) / (ds.rows.length : ℚ) * 100))) := by
  obtain ⟨i, hi, rfl⟩ := mem_columns_info hc
  have hlen : (colValues ds i).length = ds.rows.length := by simp [colValues]
  constructor
  · show ((colValues ds i).filter (fun v => !v.isNull)).length +
        ((colValues ds i).filter (fun v => v.isNull)).length = ds.rows.length
    rw [← hlen]
    exact filter_isNull_partition (colValues ds i)
  · intro h
    have hne : ds.rows.length ≠ 0 := Nat.pos_iff_ne_zero.mp h
    show pct ((colValues ds i).filter (fun v => v.isNull)).length ds.rows.length =
      some (round2 (((((colValues ds i).filter (fun v => v.isNull)).length : ℕ) : ℚ)
        / (ds.rows.length : ℚ) * 100))
    simp [pct, hne]

/-- C3 witness: column A of the scenario dataset has 2 non-null and 1
null cell out of 3 rows, with null percentage 33.33. -/
theorem C3_null_invariant_witness :
    (("A", analyzeColumn (colValues wds 0) 3) ∈ (analyze_dataframe wds "f").columns_info) ∧
    0 < wds.rows.length ∧
    (analyzeColumn (colValues wds 0) 3).non_null + (analyzeColumn (colValues wds 0) 3).null
      = wds.rows.length ∧
    (analyzeColumn (colValues wds 0) 3).null_percentage =
      some (round2 (((analyzeColumn (colValues wds 0) 3).null : ℚ)
        / (wds.rows.length : ℚ) * 100)) := by
  have hmem : ("A", analyzeColumn (colValues wds 0) 3)
      ∈ (analyze_dataframe wds "f").columns_info := by
    simp only [analyze_dataframe, List.mem_map, List.mem_range]
    exact ⟨0, by decide, rfl⟩
  exact ⟨hmem, by decide,
    (C3_null_invariant wds "f" ("A", analyzeColumn (colValues wds 0) 3) hmem).1,
    (C3_null_invariant wds "f" ("A", analyzeColumn (colValues wds 0) 3) hmem).2 (by decide)⟩

/-- C8: for every dataset and every column index `i`, the `unique`
field of the `i`-th entry of `columns_info` equals the number of
distinct non-null values of that same column `i`, and is at most that
entry's non-null count. -/
theorem C8_unique_distinct (ds : Dataset) (name : String) (i : ℕ)
    (hi : i < ds.columns.length) :
    ((analyze_dataframe ds name).columns_info.getD i ("", analyzeColumn [] 0)).2.unique
      = ((colValues ds i).filter (fun v => !v.isNull)).toFinset.card ∧
    ((analyze_dataframe ds name).columns_info.getD i ("", analyzeColumn [] 0)).2.unique
      ≤ ((analyze_dataframe ds name).columns_info.getD i ("", analyzeColumn [] 0)).2.non_null := by
  have hget : (analyze_dataframe ds name).columns_info.getD i ("", analyzeColumn [] 0)
      = (ds.columns.getD i "", analyzeColumn (colValues ds i) ds.rows.length) := by
    show ((List.range ds.columns.length).map _).getD i _ = _
    rw [List.getD_eq_getElem?_getD, List.getElem?_map, List.getElem?_range hi]
    rfl
  rw [hget]
  constructor
  · show ((colValues ds i).filter (fun v => !v.isNull)).dedup.length =
        ((colValues ds i).filter (fun v => !v.isNull)).toFinset.card
    rw [List.card_toFinset]
  · show ((colValues ds i).filter (fun v => !v.isNull)).dedup.length ≤
        ((colValues ds i).filter (fun v => !v.isNull)).length
    exact List.Sublist.length_le (List.dedup_sublist _)

/-- C8 witness: the entry at index 1 of the scenario dataset's profile
records column B's own 3 distinct non-null values out of 3 non-null
cells. -/
theorem C8_unique_distinct_witness :
    1 < wds.columns.length ∧
    (((analyze_dataframe wds "f").columns_info.getD 1 ("", analyzeColumn [] 0)).2.unique
      = ((colValues wds 1).filter (fun v => !v.isNull)).toFinset.card ∧
    ((analyze_dataframe wds "f").columns_info.getD 1 ("", analyzeColumn [] 0)).2.unique
      ≤ ((analyze_dataframe wds "f").columns_info.getD 1 ("", analyzeColumn [] 0)).2.non_null) :=
  ⟨by decide, C8_unique_distinct wds "f" 1 (by decide)⟩

/-- C6: a numeric column with zero non-null values is analyzed without
any crash (the analyzer is a total function) and all its numeric
sub-statistics are flagged as undefined (`none`, the NaN of the source)
rather than reported as numeric values. -/
theorem C6_all_null_numeric (vs : List Value) (n : ℕ)
    (hnum : isNumericCol vs = true)
    (hz : (vs.filter (fun v => !v.isNull)).length = 0) :
    (analyzeColumn vs n).typeStats =
      TypeStats.numeric ⟨none, none, none, none, none⟩ := by
  have hall : ∀ v ∈ vs, v.isNull = true := by
    rw [List.length_eq_zero, List.filter_eq_nil_iff] at hz
    intro v hv
    have := hz v hv
    simpa using this
  have hnums : vs.filterMap Value.toNum = [] := by
    rw [List.filterMap_eq_nil_iff]
    intro v hv
    have := hall v hv
    cases v <;> simp_all [Value.isNull, Value.toNum]
  simp [analyzeColumn, hnum, hnums, meanOf, medianOf, listMin, listMax, sampleVar]

/-- C6 witness: an all-null two-row column is numeric, has zero non-null
values, and every numeric sub-statistic is undefined. -/
theorem C6_all_null_numeric_witness :
    isNumericCol [Value.null, Value.null] = true ∧
    ([Value.null, Value.null].filter (fun v => !v.isNull)).length = 0 ∧
    (analyzeColumn [Value.null, Value.null] 2).typeStats =
      TypeStats.numeric ⟨none, none, none, none, none⟩ :=
  ⟨by decide, by decide, C6_all_null_numeric _ 2 (by decide) (by decide)⟩

/-- C2 (the claim fails on the code): on a one-column dataset with zero
rows, the profiler's percentage divisions produce NaN (`none`), not 0;
the quality score evaluates to 0 (Python's `max(0, nan)`), not 100; and
the markdown report's per-column percentage `non_null / rows` divides
two plain ints by zero and raises `ZeroDivisionError` (`none`). Only
`row_count = 0` holds as claimed. -/
theorem C2_zero_rows_divergence :
    (analyze_dataframe emptyDS "f").rows = 0 ∧
    (analyze_dataframe emptyDS "f").duplicates_percentage = none ∧
    (analyze_dataframe emptyDS "f").columns_info.map (fun c => c.2.null_percentage)
      = [none] ∧
    generate_quality_score (analyze_dataframe emptyDS "f") = 0 ∧
    report_non_null_pct 0 (analyze_dataframe emptyDS "f").rows = none := by
  decide

/-- C10: the summary table's average null percentage raises
`ZeroDivisionError` (`none`) when `columns_info` is empty, and for every
profile with at least one column (and defined percentages) it equals the
arithmetic mean of the columns' null percentages. -/
theorem C10_avg_null_spec :
    avg_null [] = none ∧
    ∀ (cols : List (String × ColumnProfile)) (l : List ℚ),
      cols ≠ [] →
      cols.map (fun c => c.2.null_percentage) = l.map some →
      avg_null cols = some (l.sum / (l.length : ℚ)) := by
  refine ⟨rfl, ?_⟩
  intro cols l hne hl
  have hsum := nullPctSum_eq cols l hl
  have hlen : cols.length = l.length := by
    have := congrArg List.length hl
    simpa using this
  cases cols with
  | nil => exact absurd rfl hne
  | cons c cs =>
    have hll : l.length = cs.length + 1 := by simpa using hlen.symm
    simp [avg_null, hsum, hll]

/-- C10 witness: a one-column profile with null percentage 10 has
average null percentage 10. -/
theorem C10_avg_null_witness :
    ([("A", wcp 10)] : List (String × ColumnProfile)) ≠ [] ∧
    [("A", wcp 10)].map (fun c => c.2.null_percentage) = [(10 : ℚ)].map some ∧
    avg_null [("A", wcp 10)] = some ([(10 : ℚ)].sum / ([(10 : ℚ)].length : ℚ)) :=
  ⟨by decide, by decide, C10_avg_null_spec.2 [("A", wcp 10)] [10] (by decide) (by decide)⟩

/-- C4: the profile's duplicate count equals the number of row indices
whose row is an exact value-wise duplicate of an earlier row (all
columns matching), and for a positive row count the duplicate
percentage equals `duplicates / row_count × 100` rounded to two
decimals and lies in `[0, 100]` (for a zero row count the source
computes NaN, see C2). -/
theorem C4_duplicates (ds : Dataset) (name : String) :
    (analyze_dataframe ds name).duplicates_total =
      ((List.range ds.rows.length).filter (fun i => decide (hasEarlierDup ds.rows i))).length ∧
    (0 < ds.rows.length →
      ∃ q, (analyze_dataframe ds name).duplicates_percentage = some q ∧
        q = round2 ((dupCount ds.rows : ℚ) / (ds.rows.length : ℚ) * 100) ∧
        0 ≤ q ∧ q ≤ 100) := by
  constructor
  · exact dupCount_eq_earlier ds.rows
  · intro h
    have hne : ds.rows.length ≠ 0 := Nat.pos_iff_ne_zero.mp h
    refine ⟨round2 ((dupCount ds.rows : ℚ) / (ds.rows.length : ℚ) * 100), ?_, rfl, ?_⟩
    · show pct (dupCount ds.rows) ds.rows.length = _
      simp [pct, hne]
    · have hd : dupCount ds.rows ≤ ds.rows.length := dupCount_le_length ds.rows
      have hpos : (0 : ℚ) < (ds.rows.length : ℚ) := by exact_mod_cast h
      have hle : (dupCount ds.rows : ℚ) ≤ (ds.rows.length : ℚ) := by exact_mod_cast hd
      have hx0 : 0 ≤ (dupCount ds.rows : ℚ) / (ds.rows.length : ℚ) * 100 := by positivity
      have hx1 : (dupCount ds.rows : ℚ) / (ds.rows.length : ℚ) * 100 ≤ 100 := by
        rw [div_mul_eq_mul_div, div_le_iff hpos]
        nlinarith
      exact round2_bounds hx0 hx1

/-- C4 witness: in a four-row dataset whose third row repeats the first,
one row is flagged as a duplicate and the duplicate percentage is 25. -/
theorem C4_duplicates_witness :
    0 < wds4.rows.length ∧
    ((analyze_dataframe wds4 "f").duplicates_total =
      ((List.range wds4.rows.length).filter
        (fun i => decide (hasEarlierDup wds4.rows i))).length) ∧
    (∃ q, (analyze_dataframe wds4 "f").duplicates_percentage = some q ∧
      q = round2 ((dupCount wds4.rows : ℚ) / (wds4.rows.length : ℚ) * 100) ∧
      0 ≤ q ∧ q ≤ 100) :=
  ⟨by decide, (C4_duplicates wds4 "f").1, (C4_duplicates wds4 "f").2 (by decide)⟩

/-- C7 counterexample: the concrete 3-row, 2-column dataset with one
null in column A and no duplicate rows satisfies every condition of the
claim, yet its quality score is 83.335 (= 16667/200), not 83.34: the
source never rounds the score, so `100 − 33.33 × 0.5 = 83.335` is
returned as is. -/
theorem C7_score_counterexample :
    wds.rows.length = 3 ∧ wds.columns.length = 2 ∧
    nullCount (colValues wds 0) = 1 ∧ nullCount (colValues wds 1) = 0 ∧
    dupCount wds.rows = 0 ∧
    generate_quality_score (analyze_dataframe wds "f") = 16667 / 200 ∧
    ¬ generate_quality_score (analyze_dataframe wds "f") = 8334 / 100 := by
  have h := scenario1_eval wds "f" (by decide) (by decide) (by decide) (by decide) (by decide)
  refine ⟨by decide, by decide, by decide, by decide, by decide, h.2, ?_⟩
  rw [h.2]
  norm_num

/-- C7 amended: for every dataset of 3 rows and 2 columns with exactly
one null value located in column A (column B has none) and no duplicate
rows, column A's null percentage is 33.33 and the quality score equals
83.335 (the source applies no rounding to the score). -/
theorem C7_score_amended (ds : Dataset) (name : String)
    (hc : ds.columns.length = 2) (hr : ds.rows.length = 3)
    (hA : nullCount (colValues ds 0) = 1)
    (hB : nullCount (colValues ds 1) = 0)
    (hd : dupCount ds.rows = 0) :
    (analyze_dataframe ds name).columns_info.map (fun c => c.2.null_percentage)
      = [some (3333 / 100), some 0] ∧
    generate_quality_score (analyze_dataframe ds name) = 16667 / 200 :=
  scenario1_eval ds name hc hr hA hB hd

/-- C7 witness: the amended statement evaluated on the concrete
scenario dataset. -/
theorem C7_score_amended_witness :
    wds.columns.length = 2 ∧ wds.rows.length = 3 ∧
    nullCount (colValues wds 0) = 1 ∧ nullCount (colValues wds 1) = 0 ∧
    dupCount wds.rows = 0 ∧
    (analyze_dataframe wds "t").columns_info.map (fun c => c.2.null_percentage)
      = [some (3333 / 100), some 0] ∧
    generate_quality_score (analyze_dataframe wds "t") = 16667 / 200 :=
  ⟨by decide, by decide, by decide, by decide, by decide,
    (C7_score_amended wds "t" (by decide) (by decide) (by decide) (by decide) (by decide)).1,
    (C7_score_amended wds "t" (by decide) (by decide) (by decide) (by decide) (by decide)).2⟩

end DataProfiler
